import Mathlib

/-!
Verification of the web-scraper-pro repository.

The development shallowly embeds the Python sources:
  * `src/webscraper/config.py`  — configuration constants,
  * `src/webscraper/utils.py`   — `validar_url`, `sanitizar_nombre_archivo`,
    `obtener_extension_segura`, `es_archivo_seguro`,
  * `src/webscraper/scraper.py` — the `WebScraper` crawl engine
    (`es_url_interna`, `obtener_ruta_relativa`, `descargar_recurso`,
    `procesar_enlaces`, `procesar_pagina`, `descargar_pagina`),
  * `src/app.py`                — the `ResourceManager` in-memory cache.

Python's `urllib.parse.urlsplit`, `urlunsplit` and `urljoin` are embedded
over `List Char`, following the CPython algorithms (params components are
not modelled; none of the scraped code passes `;`-params through these
functions).  Network and filesystem effects are modelled by explicit state
passing: a `Redes` record maps URLs to optional fetch results (`none`
models a raised request exception / non-2xx status after
`raise_for_status`), and the crawl state records every file write, every
network fetch, the statistics counters, and — as ghost state — every job
ever placed on the work queue together with the depth of the job that
created it.
-/

namespace WebScraperPro

/-! ## Generic character-list utilities -/

/-- Splits a character list at every occurrence of `sep`
(Python `str.split(sep)`): `splitChar "a/b" '/' = ["a", "b"]`,
`splitChar "" '/' = [""]`. -/
def splitChar : List Char → Char → List (List Char)
  | [], _ => [[]]
  | c :: cs, sep =>
    let r := splitChar cs sep
    if c = sep then [] :: r
    else
      match r with
      | [] => [[c]]
      | h :: t => (c :: h) :: t

/-- Joins character lists with a separator (Python `sep.join(xs)`). -/
def uneCon (sep : Char) : List (List Char) → List Char
  | [] => []
  | [a] => a
  | a :: b :: resto => a ++ sep :: uneCon sep (b :: resto)

/-- Cuts a list at the first occurrence of `sep`; `none` when `sep` is
absent (Python `s.split(sep, 1)` guarded by `sep in s`). -/
def corta (sep : Char) : List Char → Option (List Char × List Char)
  | [] => none
  | c :: cs =>
    if c = sep then some ([], cs)
    else (corta sep cs).map (fun p => (c :: p.1, p.2))

/-- Longest initial segment free of the URL netloc delimiters `/`, `?`,
`#`, paired with the remainder (CPython `_splitnetloc`). -/
def hastaDelim : List Char → List Char × List Char
  | [] => ([], [])
  | c :: cs =>
    if c = '/' ∨ c = '?' ∨ c = '#' then ([], c :: cs)
    else
      let p := hastaDelim cs
      (c :: p.1, p.2)

/-- ASCII alphabetic test (Python `str.isascii() and str.isalpha()` on one
character). -/
def esAlfaAscii (c : Char) : Bool :=
  ('a' ≤ c ∧ c ≤ 'z') ∨ ('A' ≤ c ∧ c ≤ 'Z')

/-- ASCII digit test. -/
def esDigito (c : Char) : Bool :=
  '0' ≤ c ∧ c ≤ '9'

/-- Characters allowed after the first position of a URL scheme
(CPython `scheme_chars`). -/
def esCharEsquema (c : Char) : Bool :=
  esAlfaAscii c || esDigito c || c = '+' || c = '-' || c = '.'

/-- Membership of a character in a string's characters. -/
def charEn (c : Char) (s : String) : Bool :=
  s.data.contains c

/-- Suffix test on strings (Python `str.endswith`). -/
def terminaEn (s suf : String) : Bool :=
  let l := s.data
  let m := suf.data
  if m.length ≤ l.length then List.drop (l.length - m.length) l == m else false

/-- Initial-segment test on strings (Python `str.startswith`, also the
slice comparison `s[:n] == pre` for `n = len(pre)`). -/
def empiezaCon (s pre : String) : Bool :=
  s.data.take pre.data.length == pre.data

/-- ASCII lowercasing of a whole string (Python `str.lower`; the scraped
code only lowercases ASCII scheme names, paths and extensions). -/
def aMinusculas (s : String) : String :=
  String.mk (s.data.map Char.toLower)

/-- Decimal digit character for `m % 10` (Python `str(n)` digit). -/
def digitChar (m : Nat) : Char :=
  if m = 0 then '0' else if m = 1 then '1' else if m = 2 then '2'
  else if m = 3 then '3' else if m = 4 then '4' else if m = 5 then '5'
  else if m = 6 then '6' else if m = 7 then '7' else if m = 8 then '8'
  else if m = 9 then '9' else '0'

/-- Digit accumulator for `natToStr`; `fuel` dominates the number of
decimal digits. -/
def natToStrAux : Nat → Nat → List Char → List Char
  | 0, _, acc => acc
  | fuel + 1, n, acc =>
    if n < 10 then digitChar (n % 10) :: acc
    else natToStrAux fuel (n / 10) (digitChar (n % 10) :: acc)

/-- Decimal rendering of a natural number (Python `str(n)` / f-string
interpolation). -/
def natToStr (n : Nat) : String :=
  String.mk (natToStrAux (n + 1) n [])

/-! ## Python `urllib.parse` embedding -/

/-- Result of `urllib.parse.urlsplit` (the `params` component of
`urlparse` is not modelled; the scraped code never passes `;`-params). -/
structure SplitResult where
  scheme : String
  netloc : String
  path : String
  query : String
  fragment : String
deriving DecidableEq, Repr

/-- Schemes that support relative resolution (CPython `uses_relative`). -/
def usesRelative : List String :=
  ["", "ftp", "http", "gopher", "nntp", "imap", "wais", "file", "https",
   "shttp", "mms", "prospero", "rtsp", "rtspu", "sftp", "svn", "svn+ssh",
   "ws", "wss"]

/-- Schemes that carry a network location (CPython `uses_netloc`). -/
def usesNetloc : List String :=
  ["", "ftp", "http", "gopher", "nntp", "telnet", "imap", "wais", "file",
   "mms", "https", "shttp", "snews", "prospero", "rtsp", "rtspu", "rsync",
   "svn", "svn+ssh", "sftp", "nfs", "git", "git+ssh", "ws", "wss"]

/-- CPython `urllib.parse.urlsplit`: extract `scheme` (only when the text
before the first `:` is a well-formed scheme, lowercased), then `netloc`
after a leading `//` up to the first `/`, `?` or `#`, then split off the
fragment at the first `#` and the query at the first `?`. -/
def pyUrlsplit (url : String) : SplitResult :=
  let l := url.data
  let p1 :=
    match corta ':' l with
    | some (antes, despues) =>
      match antes with
      | [] => (([] : List Char), l)
      | c0 :: cresto =>
        if esAlfaAscii c0 ∧ cresto.all esCharEsquema then
          ((c0 :: cresto).map Char.toLower, despues)
        else ([], l)
    | none => ([], l)
  let esquema := p1.1
  let resto := p1.2
  let p2 :=
    match resto with
    | '/' :: '/' :: cs => hastaDelim cs
    | _ => (([] : List Char), resto)
  let netloc := p2.1
  let resto2 := p2.2
  let p3 :=
    match corta '#' resto2 with
    | some (a, b) => (a, b)
    | none => (resto2, ([] : List Char))
  let p4 :=
    match corta '?' p3.1 with
    | some (a, b) => (a, b)
    | none => (p3.1, ([] : List Char))
  ⟨String.mk esquema, String.mk netloc, String.mk p4.1,
   String.mk p4.2, String.mk p3.2⟩

/-- CPython `urllib.parse.urlunsplit` (with empty params). -/
def pyUrlunsplit (r : SplitResult) : String :=
  let u := r.path
  let u :=
    if r.netloc ≠ "" ∨ (u ≠ "" ∧ u.data.take 2 = ['/', '/']) then
      let u := if u ≠ "" ∧ u.data.headD ' ' ≠ '/' then "/" ++ u else u
      "//" ++ r.netloc ++ u
    else u
  let u := if r.scheme ≠ "" then r.scheme ++ ":" ++ u else u
  let u := if r.query ≠ "" then u ++ "?" ++ r.query else u
  if r.fragment ≠ "" then u ++ "#" ++ r.fragment else u

/-- Middle-segment cleanup in CPython `urljoin`:
`segments[1:-1] = filter(None, segments[1:-1])`. -/
def filtraMedio (l : List (List Char)) : List (List Char) :=
  match l with
  | [] => []
  | [a] => [a]
  | a :: resto =>
    a :: (resto.dropLast.filter (fun s => s ≠ [])) ++ [resto.getLastD []]

/-- Dot-segment resolution loop of CPython `urljoin`
(`..` pops — on an empty stack the `IndexError` is swallowed — and `.` is
skipped). -/
def resuelveSegmentos : List (List Char) → List (List Char) → List (List Char)
  | acc, [] => acc
  | acc, seg :: resto =>
    if seg = ['.', '.'] then resuelveSegmentos acc.dropLast resto
    else if seg = ['.'] then resuelveSegmentos acc resto
    else resuelveSegmentos (acc ++ [seg]) resto

/-- CPython `urllib.parse.urljoin` (with the unmodelled `params`
component taken as empty throughout, as in every call site of the
scraper). -/
def pyUrljoin (base url : String) : String :=
  if base = "" then url
  else if url = "" then base
  else
    let b := pyUrlsplit base
    let p0 := pyUrlsplit url
    let esquema := if p0.scheme = "" then b.scheme else p0.scheme
    if esquema ≠ b.scheme ∨ ¬ usesRelative.contains esquema then url
    else
      if usesNetloc.contains esquema ∧ p0.netloc ≠ "" then
        pyUrlunsplit ⟨esquema, p0.netloc, p0.path, p0.query, p0.fragment⟩
      else
        let netloc := if usesNetloc.contains esquema then b.netloc else p0.netloc
        if p0.path = "" then
          pyUrlunsplit ⟨esquema, netloc, b.path,
            (if p0.query = "" then b.query else p0.query), p0.fragment⟩
        else
          let basePartes0 := splitChar b.path.data '/'
          let basePartes :=
            if basePartes0.getLastD [] ≠ [] then basePartes0.dropLast
            else basePartes0
          let segmentos :=
            if empiezaCon p0.path "/" then splitChar p0.path.data '/'
            else filtraMedio (basePartes ++ splitChar p0.path.data '/')
          let resueltos := resuelveSegmentos [] segmentos
          let resueltos :=
            if segmentos.getLastD [] = ['.'] ∨ segmentos.getLastD [] = ['.', '.']
            then resueltos ++ [[]]
            else resueltos
          let camino := uneCon '/' resueltos
          let camino := if camino = [] then ['/'] else camino
          pyUrlunsplit ⟨esquema, netloc, String.mk camino, p0.query, p0.fragment⟩

/-! ## `os.path` helpers (POSIX flavour, as the scraper runs them) -/

/-- POSIX `os.path.join` of two components: an absolute second component
resets the path; otherwise a `/` is inserted unless the first component is
empty or already ends in `/`. -/
def posixJoin (a b : String) : String :=
  if empiezaCon b "/" then b
  else if a = "" || terminaEn a "/" then a ++ b
  else a ++ "/" ++ b

/-- POSIX `os.path.join(a, *partes)`. -/
def posixJoinMany (a : String) : List String → String
  | [] => a
  | b :: resto => posixJoinMany (posixJoin a b) resto

/-- Python slice `s[:n]` for a possibly negative bound. -/
def pyTake (s : String) (n : Int) : String :=
  if 0 ≤ n then String.mk (s.data.take n.toNat)
  else String.mk (s.data.take (s.data.length - (-n).toNat))

/-- POSIX `os.path.splitext`: split off the extension at the last `.`
that lies after the last `/` and is preceded (within the basename) by at
least one non-dot character. -/
def pySplitext (p : String) : String × String :=
  let l := p.data
  let sepIdx : Int :=
    match corta '/' l.reverse with
    | some (antes, _) => (l.length : Int) - 1 - antes.length
    | none => -1
  let dotIdx : Int :=
    match corta '.' l.reverse with
    | some (antes, _) => (l.length : Int) - 1 - antes.length
    | none => -1
  if sepIdx < dotIdx then
    let nombreIni := (sepIdx + 1).toNat
    let medio := (l.drop nombreIni).take (dotIdx.toNat - nombreIni)
    if medio.any (fun c => c ≠ '.') then
      (String.mk (l.take dotIdx.toNat), String.mk (l.drop dotIdx.toNat))
    else (p, "")
  else (p, "")

/-- Python `str.strip(chars)`: drop characters of `quitar` from both
ends. -/
def pyStrip (s : String) (quitar : List Char) : String :=
  let l := s.data.dropWhile (fun c => quitar.contains c)
  String.mk ((l.reverse.dropWhile (fun c => quitar.contains c)).reverse)

/-- Python `str.lstrip('/')`. -/
def pyLstripSlash (s : String) : String :=
  String.mk (s.data.dropWhile (fun c => c = '/'))

end WebScraperPro

namespace WebScraperPro

/-! ## `src/webscraper/config.py` -/

/-- `SecurityConfig.INVALID_CHARS = '<>:"/\|?*'`. -/
def INVALID_CHARS : String := "<>:\"/\\|?*"

/-- `SecurityConfig.BLOCKED_EXTENSIONS`. -/
def BLOCKED_EXTENSIONS : List String := [".php", ".asp", ".aspx", ".jsp", ".exe"]

/-- `SecurityConfig.MAX_FILE_SIZE = 50_000_000`. -/
def MAX_FILE_SIZE : Nat := 50000000

/-- `ScraperConfig.VALID_SCHEMES = {'http', 'https'}`. -/
def VALID_SCHEMES : List String := ["http", "https"]

/-- `ScraperConfig.SUPPORTED_EXTENSIONS`. -/
def SUPPORTED_EXTENSIONS : List String :=
  [".jpg", ".jpeg", ".png", ".gif", ".svg", ".webp",
   ".html", ".htm", ".css", ".js",
   ".woff", ".woff2", ".ttf", ".eot",
   ".mp4", ".webm", ".mp3", ".wav"]

/-- `ScraperConfig.CACHE_EXPIRY = 3600` seconds, also
`app.WebScraperConfig.CACHE_EXPIRY`. -/
def CACHE_EXPIRY : Int := 3600

/-! ## `src/webscraper/utils.py` -/

/-- `utils.validar_url`: scheme in `VALID_SCHEMES`, non-empty netloc, no
character of `INVALID_CHARS` anywhere in the URL, and length at most
2048.  The `try`/`except` wrapper returns `False` on a parse exception;
the embedded parser is total, so the `all([...])` body is the whole
function. -/
def validar_url (url : String) : Bool :=
  let parsed := pyUrlsplit url
  VALID_SCHEMES.contains parsed.scheme &&
  parsed.netloc ≠ "" &&
  !(url.data.any (fun c => charEn c INVALID_CHARS)) &&
  url.length ≤ 2048

/-- `re.sub(f'[{SecurityConfig.INVALID_CHARS}]', '_', nombre)`: each
character of the invalid set is replaced by exactly one underscore. -/
def reemplazaInvalidos (s : String) : String :=
  String.mk (s.data.map (fun c => if charEn c INVALID_CHARS then '_' else c))

/-- `utils.sanitizar_nombre_archivo`: replace invalid characters by `_`;
if the result exceeds 255 characters, truncate the stem to
`255 - len(ext)` characters (Python slice semantics) keeping the
extension; finally strip leading and trailing `.` and `_`. -/
def sanitizar_nombre_archivo (nombre : String) : String :=
  let nombre_limpio := reemplazaInvalidos nombre
  let nombre_limpio :=
    if 255 < nombre_limpio.length then
      let be := pySplitext nombre_limpio
      pyTake be.1 (255 - (be.2.length : Int)) ++ be.2
    else nombre_limpio
  pyStrip nombre_limpio ['.', '_']

/-- `utils.obtener_extension_segura`: lowercased extension of the URL
path; `none` when blocked, the extension when supported, `none`
otherwise. -/
def obtener_extension_segura (url : String) : Option String :=
  let ext := aMinusculas (pySplitext (pyUrlsplit url).path).2
  if BLOCKED_EXTENSIONS.contains ext then none
  else if SUPPORTED_EXTENSIONS.contains ext then some ext
  else none

/-- `utils.es_archivo_seguro`: a safe extension, size within
`MAX_FILE_SIZE`, and no invalid character in the name.  The crawl
pipeline in `scraper.py` never calls this function. -/
def es_archivo_seguro (nombre : String) (tamano : Nat) : Bool :=
  (obtener_extension_segura nombre).isSome &&
  tamano ≤ MAX_FILE_SIZE &&
  !(nombre.data.any (fun c => charEn c INVALID_CHARS))

end WebScraperPro

namespace WebScraperPro

/-! ## `src/webscraper/scraper.py` — data model -/

/-- The `self.config` dictionary built in `WebScraper.__init__`
(`timeout` is irrelevant to the embedded behaviour and omitted). -/
structure Config where
  mantener_estructura : Bool
  incluir_imagenes : Bool
  incluir_css : Bool
  incluir_js : Bool
  max_profundidad : Nat
deriving DecidableEq, Repr

/-- The `WebScraper` object: `self.base_url`, `self.domain`
(`urlparse(base_url).netloc`, see `nuevoScraper`), `self.config`. -/
structure Scraper where
  base_url : String
  domain : String
  config : Config
deriving DecidableEq, Repr

/-- `WebScraper.__init__`: the domain is the netloc of the base URL. -/
def nuevoScraper (base_url : String) (config : Config) : Scraper :=
  ⟨base_url, (pyUrlsplit base_url).netloc, config⟩

/-- A parsed HTML document as `BeautifulSoup` exposes it to the scraper:
the attribute values found by `find_all('img', src=True)`,
`find_all('link', rel='stylesheet')` (href present),
`find_all('script', src=True)` and `find_all('a', href=True)`. -/
structure Page where
  imgs : List String
  csss : List String
  jss : List String
  anchors : List String
deriving DecidableEq, Repr

/-- `str(soup.prettify())` restricted to the modelled attributes: tags are
serialized with their (never mutated by `scraper.py`) attribute values;
prettify whitespace is not modelled. -/
def serializePage (p : Page) : String :=
  "<html>"
  ++ String.join (p.csss.map (fun s => "<link rel=\"stylesheet\" href=\"" ++ s ++ "\"/>"))
  ++ String.join (p.jss.map (fun s => "<script src=\"" ++ s ++ "\"></script>"))
  ++ String.join (p.imgs.map (fun s => "<img src=\"" ++ s ++ "\"/>"))
  ++ String.join (p.anchors.map (fun s => "<a href=\"" ++ s ++ "\"></a>"))
  ++ "</html>"

/-- `self.estadisticas` counters mutated by the crawl (`inicio` and
`tiempo_total` are wall-clock values outside the model). -/
structure Stats where
  archivos_procesados : Nat
  bytes_descargados : Nat
  errores : Nat
deriving DecidableEq, Repr

/-- The external world: `paginas url` is the parsed soup of a successful
page `GET` (`none` models a raised exception, including non-2xx after
`raise_for_status`); `recursos url` is a successful resource body. -/
structure Redes where
  paginas : String → Option Page
  recursos : String → Option String

/-- The mutable state of one run: the work queue `cola_urls`, the sets
`urls_procesadas` and `archivos_descargados`, plus observables — the file
writes (relative path, content), the URLs passed to `session.get`, the
statistics, and ghost state `historial` recording every job ever put on
`cola_urls` as `(depth of the creating job, url, depth)`; the seed is
recorded with creator `none`. -/
structure CrawlState where
  cola : List (String × Nat)
  urls_procesadas : List String
  archivos_descargados : List String
  writes : List (String × String)
  fetches : List String
  stats : Stats
  historial : List (Option Nat × String × Nat)
deriving DecidableEq, Repr

/-- Fresh state of `WebScraper.__init__`. -/
def estadoInicial : CrawlState :=
  ⟨[], [], [], [], [], ⟨0, 0, 0⟩, []⟩

/-! ## `src/webscraper/scraper.py` — operations -/

/-- `WebScraper.es_url_interna` (lines 75-81): same netloc as
`self.domain`, or no netloc at all. -/
def es_url_interna (sc : Scraper) (url : String) : Bool :=
  let parsed := pyUrlsplit url
  parsed.netloc == sc.domain || parsed.netloc == ""

/-- Document extensions recognized at `scraper.py` line 101. -/
def extensionesDocumento : List String :=
  [".html", ".htm", ".php", ".asp", ".aspx"]

/-- Test of `scraper.py` line 101:
`any(path.lower().endswith(ext) for ext in [...])`. -/
def tieneExtensionDocumento (path : String) : Bool :=
  extensionesDocumento.any (fun ext => terminaEn (aMinusculas path) ext)

/-- `WebScraper.obtener_ruta_relativa` (lines 83-119): resolve against
the base URL, reject foreign non-empty netlocs, default empty or
directory paths to `index.html`, append `index.html` to paths without a
document extension, strip leading slashes, replace the invalid character
set (which includes `/`) by `_`, and under `nivel > 0` nest below a
`nivel_<n>` component. -/
def obtener_ruta_relativa (sc : Scraper) (url : String) (nivel : Nat) : Option String :=
  if url = "" then none
  else
    let url_completa := pyUrljoin sc.base_url url
    let parsed := pyUrlsplit url_completa
    if parsed.netloc ≠ "" ∧ parsed.netloc ≠ sc.domain then none
    else
      let path :=
        if parsed.path = "" ∨ parsed.path = "/" then "index.html"
        else if terminaEn parsed.path "/" then parsed.path ++ "index.html"
        else if ¬ tieneExtensionDocumento parsed.path then
          posixJoin parsed.path "index.html"
        else parsed.path
      let path := reemplazaInvalidos (pyLstripSlash path)
      if 0 < nivel then
        let partes := splitChar path.data '/'
        if 1 < partes.length then
          some (posixJoinMany ("nivel_" ++ natToStr nivel) (partes.map String.mk))
        else some (posixJoin ("nivel_" ++ natToStr nivel) path)
      else some path

/-- Body of `WebScraper.descargar_recurso` after the unguarded membership
check (lines 126-161): resolve the path, `GET` the joined URL, on failure
count one error, on success record the write, the byte count, the
processed-file count, and add the URL to `archivos_descargados` under the
lock. -/
def descargar_recurso_cuerpo (sc : Scraper) (recursos : String → Option String)
    (st : CrawlState) (url : String) (nivel : Nat) : CrawlState × Option String :=
  match obtener_ruta_relativa sc url nivel with
  | none => (st, none)
  | some ruta_relativa =>
    let objetivo := pyUrljoin sc.base_url url
    let st := { st with fetches := st.fetches ++ [objetivo] }
    match recursos objetivo with
    | none =>
      ({ st with stats := { st.stats with errores := st.stats.errores + 1 } }, none)
    | some contenido =>
      ({ st with
          writes := st.writes ++ [(ruta_relativa, contenido)],
          archivos_descargados :=
            if st.archivos_descargados.contains url then st.archivos_descargados
            else st.archivos_descargados ++ [url],
          stats := { st.stats with
            bytes_descargados := st.stats.bytes_descargados + contenido.length,
            archivos_procesados := st.stats.archivos_procesados + 1 } },
       some ruta_relativa)

/-- `WebScraper.descargar_recurso` (lines 121-161) as one sequential
call: the entry guard `if not url or url in self.archivos_descargados`
(executed without the lock) followed by the body. -/
def descargar_recurso (sc : Scraper) (recursos : String → Option String)
    (st : CrawlState) (url : String) (nivel : Nat) : CrawlState × Option String :=
  if url = "" || st.archivos_descargados.contains url then (st, none)
  else descargar_recurso_cuerpo sc recursos st url nivel

/-- The resource loops of `procesar_pagina` (lines 193-204): download
each attribute value in order, discarding the returned paths. -/
def procesarRecursos (sc : Scraper) (recursos : String → Option String)
    (nivel : Nat) : CrawlState → List String → CrawlState
  | st, [] => st
  | st, u :: resto =>
    procesarRecursos sc recursos nivel (descargar_recurso sc recursos st u nivel).1 resto

/-- `WebScraper.procesar_enlaces` (lines 163-177): empty once
`nivel_actual >= max_profundidad`; otherwise every `a[href]` joined
against the base URL that is internal and not yet in
`urls_procesadas`. -/
def procesar_enlaces (sc : Scraper) (st : CrawlState) (soup : Page)
    (nivel_actual : Nat) : List String :=
  if sc.config.max_profundidad ≤ nivel_actual then []
  else
    soup.anchors.foldl
      (fun enlaces href =>
        let url_completa := pyUrljoin sc.base_url href
        if es_url_interna sc url_completa
            && !(st.urls_procesadas.contains url_completa) then
          enlaces ++ [url_completa]
        else enlaces)
      []

/-- The enqueue loop of `procesar_pagina` (lines 217-219): each link not
yet in `urls_procesadas` is put on `cola_urls` at `nivel + 1`; the ghost
`historial` records the put together with the creating job's depth. -/
def encolarEnlaces (nivel : Nat) : List String → CrawlState → CrawlState
  | [], st => st
  | enlace :: resto, st =>
    let st :=
      if st.urls_procesadas.contains enlace then st
      else
        { st with
            cola := st.cola ++ [(enlace, nivel + 1)],
            historial := st.historial ++ [(some nivel, enlace, nivel + 1)] }
    encolarEnlaces nivel resto st

/-- The body of `WebScraper.procesar_pagina` after a successful page
fetch (lines 192-212): download the configured resource categories in
source order, then write the serialized page to its resolved path. -/
def procesar_pagina_cuerpo (sc : Scraper) (recursos : String → Option String)
    (st : CrawlState) (url : String) (soup : Page) (nivel : Nat) : CrawlState :=
  let st :=
    if sc.config.incluir_imagenes then
      procesarRecursos sc recursos nivel st soup.imgs
    else st
  let st :=
    if sc.config.incluir_css then
      procesarRecursos sc recursos nivel st soup.csss
    else st
  let st :=
    if sc.config.incluir_js then
      procesarRecursos sc recursos nivel st soup.jss
    else st
  match obtener_ruta_relativa sc url nivel with
  | some ruta_relativa =>
    { st with writes := st.writes ++ [(ruta_relativa, serializePage soup)] }
  | none => st

/-- `WebScraper.procesar_pagina` (lines 179-224): skip processed URLs,
mark the URL processed, `GET` and parse it (a raised exception is caught
and counted as one error), run the resource/page-write body above, and
for `nivel < max_profundidad` enqueue the next-level links. -/
def procesar_pagina (sc : Scraper) (redes : Redes) (st : CrawlState)
    (url : String) (nivel : Nat) : CrawlState :=
  if st.urls_procesadas.contains url then st
  else
    let st1 :=
      { st with
          urls_procesadas := st.urls_procesadas ++ [url],
          fetches := st.fetches ++ [url] }
    match redes.paginas url with
    | none =>
      { st1 with stats := { st1.stats with errores := st1.stats.errores + 1 } }
    | some soup =>
      let st2 := procesar_pagina_cuerpo sc redes.recursos st1 url soup nivel
      if nivel < sc.config.max_profundidad then
        encolarEnlaces nivel (procesar_enlaces sc st2 soup nivel) st2
      else st2

/-- The dequeue loop of `WebScraper.descargar_pagina` (lines 235-249),
sequentialized: each dequeued unprocessed job runs `procesar_pagina` to
completion before the next dequeue (one faithful schedule of the 5-worker
pool).  `fuel` bounds the number of dequeues. -/
def buclePrincipal (sc : Scraper) (redes : Redes) : Nat → CrawlState → CrawlState
  | 0, st => st
  | fuel + 1, st =>
    match st.cola with
    | [] => st
    | (url, nivel) :: resto =>
      let st := { st with cola := resto }
      let st :=
        if st.urls_procesadas.contains url then st
        else procesar_pagina sc redes st url nivel
      buclePrincipal sc redes fuel st

/-- `WebScraper.descargar_pagina` (lines 226-256): seed the queue with
`(base_url, 0)`, drain it, and return `True`.  The method returns `False`
only when an exception escapes the scheduling loop itself (queue and
executor operations), which the model does not represent; every exception
inside `procesar_pagina` — including a failed fetch of the root page — is
caught there (lines 221-224) and only increments the error counter. -/
def descargar_pagina (sc : Scraper) (redes : Redes) (fuel : Nat) :
    Bool × CrawlState :=
  let st0 :=
    { estadoInicial with
        cola := [(sc.base_url, 0)],
        historial := [(none, sc.base_url, 0)] }
  (true, buclePrincipal sc redes fuel st0)

end WebScraperPro

namespace WebScraperPro

/-! ## `src/app.py` — `ResourceManager` cache -/

/-- One `self._cache` entry: `{'data': ..., 'timestamp': time.time()}`.
Timestamps are modelled as integer seconds. -/
structure CacheEntry where
  data : String
  timestamp : Int
deriving DecidableEq, Repr

/-- `ResourceManager._get_cache_key` computes `md5(url).hexdigest()` — a
deterministic function of the URL, modelled as the identity (the code
relies only on determinism; hash collisions between distinct URLs are
outside the model). -/
def get_cache_key (url : String) : String :=
  url

/-- Association lookup in the cache dictionary. -/
def buscaCache : List (String × CacheEntry) → String → Option CacheEntry
  | [], _ => none
  | (k, e) :: resto, clave => if k = clave then some e else buscaCache resto clave

/-- Dictionary assignment `self._cache[key] = entry` (replaces an
existing entry wholesale). -/
def asignaCache : List (String × CacheEntry) → String → CacheEntry →
    List (String × CacheEntry)
  | [], clave, e => [(clave, e)]
  | (k, e0) :: resto, clave, e =>
    if k = clave then (clave, e) :: resto else (k, e0) :: asignaCache resto clave e

/-- State of one `ResourceManager`: the cache plus a ghost counter of
`session.get` calls issued. -/
structure RMState where
  cache : List (String × CacheEntry)
  network_calls : Nat
deriving DecidableEq, Repr

/-- `ResourceManager.get_resource` (app.py lines 51-79) at time `now`:
return the cached payload when an entry exists and
`now - timestamp < CACHE_EXPIRY`; otherwise issue the `GET`
(`net url = none` models the caught exception path, returning `None`
without touching the cache) and on success store the entry before
returning the bytes. -/
def get_resource (net : String → Option String) (now : Int) (rm : RMState)
    (url : String) : Option String × RMState :=
  let clave := get_cache_key url
  let enCache :=
    match buscaCache rm.cache clave with
    | some e => if now - e.timestamp < CACHE_EXPIRY then some e.data else none
    | none => none
  match enCache with
  | some d => (some d, rm)
  | none =>
    let rm := { rm with network_calls := rm.network_calls + 1 }
    match net url with
    | none => (none, rm)
    | some contenido =>
      (some contenido,
       { rm with cache := asignaCache rm.cache clave ⟨contenido, now⟩ })

/-! ## Interleaved execution of `descargar_recurso`

`scraper.py` runs `procesar_pagina` on a 5-worker thread pool; two pages
can call `descargar_recurso` for the same resource URL concurrently.  The
entry check `url in self.archivos_descargados` (line 123) runs without
the lock, while the insertion into the set (lines 151-153) happens later
under the lock; a worker is therefore modelled in three phases with the
shared `CrawlState` visible between them. -/

/-- Execution phases of one `descargar_recurso` call: before the entry
check, after passing the entry check, finished. -/
inductive FaseDescarga where
  | inicial : FaseDescarga
  | comprobado : FaseDescarga
  | terminado : FaseDescarga
deriving DecidableEq, Repr

/-- One worker executing `descargar_recurso url nivel`. -/
structure Trabajador where
  url : String
  nivel : Nat
  fase : FaseDescarga
  resultado : Option String
deriving DecidableEq, Repr

/-- One atomic step of one worker against the shared state: the unguarded
membership check, then the whole remainder of the call. -/
def pasoTrabajador (sc : Scraper) (recursos : String → Option String)
    (st : CrawlState) (w : Trabajador) : CrawlState × Trabajador :=
  match w.fase with
  | .inicial =>
    if w.url = "" || st.archivos_descargados.contains w.url then
      (st, { w with fase := .terminado, resultado := none })
    else (st, { w with fase := .comprobado })
  | .comprobado =>
    let r := descargar_recurso_cuerpo sc recursos st w.url w.nivel
    (r.1, { w with fase := .terminado, resultado := r.2 })
  | .terminado => (st, w)

/-- Runs a schedule: at each tick the indexed worker takes one step. -/
def ejecutaPlan (sc : Scraper) (recursos : String → Option String) :
    List Nat → CrawlState × List Trabajador → CrawlState × List Trabajador
  | [], estado => estado
  | i :: resto, (st, ws) =>
    match ws[i]? with
    | none => ejecutaPlan sc recursos resto (st, ws)
    | some w =>
      let p := pasoTrabajador sc recursos st w
      ejecutaPlan sc recursos resto (p.1, ws.set i p.2)

end WebScraperPro

namespace WebScraperPro

/-! ## Concrete fixtures used by the runs below -/

/-- The default configuration of `WebScraper.__init__` (`kwargs` empty). -/
def cfgDefecto : Config := ⟨true, true, true, true, 1⟩

/-- A scraper seeded at `https://example.com`. -/
def scEjemplo : Scraper := nuevoScraper "https://example.com" cfgDefecto

/-- Scenario A page: `<html><img src="a.jpg"/></html>`. -/
def paginaEscenarioA : Page := ⟨["a.jpg"], [], [], []⟩

/-- Scenario A world: the seed serves the page, `a.jpg` serves body `X`,
everything else fails. -/
def redesEscenarioA : Redes :=
  ⟨fun u => if u = "https://example.com" then some paginaEscenarioA else none,
   fun u => if u = "https://example.com/a.jpg" then some "X" else none⟩

/-- The final state of the Scenario A run. -/
def corridaEscenarioA : CrawlState := (descargar_pagina scEjemplo redesEscenarioA 4).2

/-- A world in which every fetch fails, in particular the root page. -/
def redesFallaRaiz : Redes := ⟨fun _ => none, fun _ => none⟩

/-- A seed page containing only `<a href="mailto:user@remote.org">`. -/
def paginaConMailto : Page := ⟨[], [], [], ["mailto:user@remote.org"]⟩

/-- World serving `paginaConMailto` at the seed. -/
def redesConMailto : Redes :=
  ⟨fun u => if u = "https://example.com" then some paginaConMailto else none,
   fun _ => none⟩

/-- A seed page embedding `<img src="https://example.com/malware.exe"/>`. -/
def paginaConExe : Page := ⟨["https://example.com/malware.exe"], [], [], []⟩

/-- World serving the `.exe` resource with a 200 response. -/
def redesConExe : Redes :=
  ⟨fun u => if u = "https://example.com" then some paginaConExe else none,
   fun u => if u = "https://example.com/malware.exe" then some "MZ" else none⟩

/-- A scraper with structure preservation (`mantener_estructura`)
disabled. -/
def scSinEstructura : Scraper :=
  nuevoScraper "https://example.com" ⟨false, true, true, true, 1⟩

/-- Resource network serving only `https://example.com/a.jpg`. -/
def recursosSoloA : String → Option String :=
  fun u => if u = "https://example.com/a.jpg" then some "X" else none

/-- A worker about to run `descargar_recurso "a.jpg" 0`. -/
def trabajadorA : Trabajador := ⟨"a.jpg", 0, FaseDescarga.inicial, none⟩

/-- A state in which `"a.jpg"` is already in `archivos_descargados`. -/
def estadoConA : CrawlState :=
  { estadoInicial with archivos_descargados := ["a.jpg"] }

/-- Cache network serving one stylesheet. -/
def netCss : String → Option String :=
  fun u => if u = "https://example.com/r.css" then some "body" else none

/-- A 2049-character string, exceeding the URL length bound. -/
def urlLarga : String := String.mk (List.replicate 2049 'a')

/-! ## Helper lemmas: slash-freedom of sanitized names -/

/-- Every character produced by the invalid-character substitution is
distinct from `/` (which is itself in the invalid set). -/
theorem reemplazaInvalidos_sin_barra (s : String) :
    ∀ c ∈ (reemplazaInvalidos s).data, c ≠ '/' := by
  intro c hc
  have hc' : c ∈ s.data.map
      (fun c => if charEn c INVALID_CHARS then '_' else c) := hc
  rcases List.mem_map.mp hc' with ⟨c0, _, rfl⟩
  by_cases h : charEn c0 INVALID_CHARS = true
  · rw [if_pos h]; decide
  · rw [if_neg h]
    intro hcc
    subst hcc
    exact h (by decide)

/-- Splitting a separator-free list yields the singleton. -/
theorem splitChar_sin_sep (sep : Char) :
    ∀ (l : List Char), (∀ c ∈ l, c ≠ sep) → splitChar l sep = [l] := by
  intro l
  induction l with
  | nil => intro _; rfl
  | cons c cs ih =>
    intro h
    have hc : c ≠ sep := h c (by simp)
    have ih' := ih (fun x hx => h x (by simp [hx]))
    simp only [splitChar, ih', if_neg hc]

/-- Decimal digits are never `/`. -/
theorem digitChar_sin_barra (m : Nat) : digitChar m ≠ '/' := by
  unfold digitChar
  split_ifs <;> decide

/-- The digit accumulator preserves slash-freedom. -/
theorem natToStrAux_sin_barra :
    ∀ (fuel n : Nat) (acc : List Char), (∀ c ∈ acc, c ≠ '/') →
      ∀ c ∈ natToStrAux fuel n acc, c ≠ '/' := by
  intro fuel
  induction fuel with
  | zero => intro n acc hacc; exact hacc
  | succ fuel ih =>
    intro n acc hacc
    simp only [natToStrAux]
    split
    · intro c hc
      rcases List.mem_cons.mp hc with h | h
      · subst h; exact digitChar_sin_barra _
      · exact hacc c h
    · refine ih (n / 10) _ ?_
      intro c hc
      rcases List.mem_cons.mp hc with h | h
      · subst h; exact digitChar_sin_barra _
      · exact hacc c h

/-- Decimal renderings contain no `/`. -/
theorem natToStr_sin_barra (n : Nat) : ∀ c ∈ (natToStr n).data, c ≠ '/' :=
  natToStrAux_sin_barra (n + 1) n [] (by intro c hc; simp at hc)

/-- The `nivel_<n>` label contains no `/`. -/
theorem etiquetaNivel_sin_barra (n : Nat) :
    ∀ c ∈ ("nivel_" ++ natToStr n).data, c ≠ '/' := by
  intro c hc hcc
  subst hcc
  have hd : ("nivel_" ++ natToStr n).data = "nivel_".data ++ (natToStr n).data := rfl
  rw [hd] at hc
  rcases List.mem_append.mp hc with h | h
  · exact absurd h (by decide)
  · exact natToStr_sin_barra n '/' h rfl

/-- The `nivel_<n>` label is nonempty. -/
theorem etiquetaNivel_no_vacia (n : Nat) : ("nivel_" ++ natToStr n) ≠ "" := by
  intro h
  have h2 : ("nivel_" ++ natToStr n).data = "".data := by rw [h]
  rw [show ("nivel_" ++ natToStr n).data = "nivel_".data ++ (natToStr n).data from rfl]
    at h2
  exact absurd (List.append_eq_nil.mp h2).1 (by decide)

/-- On slash-free arguments with a nonempty head component, `posixJoin`
is plain concatenation with a `/`. -/
theorem posixJoin_sin_barra (a b : String) (ha : a ≠ "")
    (ha2 : ∀ c ∈ a.data, c ≠ '/') (hb : ∀ c ∈ b.data, c ≠ '/') :
    posixJoin a b = a ++ "/" ++ b := by
  have h1 : empiezaCon b "/" = false := by
    unfold empiezaCon
    cases hbd : b.data with
    | nil => rfl
    | cons c t =>
      have hc : c ≠ '/' := hb c (by rw [hbd]; simp)
      simp [hc]
  have ht : terminaEn a "/" = false := by
    unfold terminaEn
    by_cases hlen : ("/" : String).data.length ≤ a.data.length
    · rw [if_pos hlen]
      apply beq_eq_false_iff_ne.mpr
      intro hdrop
      have hsuf : a.data.drop (a.data.length - ("/" : String).data.length) <:+ a.data :=
        List.drop_suffix _ _
      rw [hdrop] at hsuf
      have hmem : '/' ∈ a.data := hsuf.subset (by decide)
      exact ha2 '/' hmem rfl
    · rw [if_neg hlen]
  unfold posixJoin
  rw [h1, show (decide (a = "") || terminaEn a "/") = false from
    by rw [decide_eq_false ha, ht]; rfl]
  rfl

end WebScraperPro

namespace WebScraperPro

/-! ## Helper lemmas: cache dictionary -/

/-- Looking up a key right after assigning it returns the assigned
entry. -/
theorem buscaCache_asignaCache (c : List (String × CacheEntry)) (k : String)
    (e : CacheEntry) : buscaCache (asignaCache c k e) k = some e := by
  induction c with
  | nil => simp [asignaCache, buscaCache]
  | cons p resto ih =>
    obtain ⟨k0, e0⟩ := p
    by_cases h : k0 = k
    · subst h
      simp [asignaCache, buscaCache]
    · simp [asignaCache, buscaCache, h, ih]

/-! ## Helper lemmas: the ghost job history -/

/-- `descargar_recurso` never touches the work queue history. -/
theorem descargar_recurso_historial (sc : Scraper) (r : String → Option String)
    (st : CrawlState) (u : String) (n : Nat) :
    ((descargar_recurso sc r st u n).1).historial = st.historial := by
  unfold descargar_recurso descargar_recurso_cuerpo
  split
  · rfl
  · split
    · rfl
    · dsimp only
      split <;> rfl

/-- The resource loops never touch the work queue history. -/
theorem procesarRecursos_historial (sc : Scraper) (r : String → Option String)
    (n : Nat) (l : List String) :
    ∀ st : CrawlState, (procesarRecursos sc r n st l).historial = st.historial := by
  induction l with
  | nil => intro st; rfl
  | cons u resto ih =>
    intro st
    simp only [procesarRecursos]
    rw [ih]
    exact descargar_recurso_historial sc r st u n

/-- The page body (resource downloads plus the page write) never touches
the work queue history. -/
theorem procesar_pagina_cuerpo_historial (sc : Scraper)
    (recursos : String → Option String) (st : CrawlState) (url : String)
    (soup : Page) (nivel : Nat) :
    (procesar_pagina_cuerpo sc recursos st url soup nivel).historial = st.historial := by
  have hpr : ∀ (b : Bool) (st' : CrawlState) (l : List String),
      (if b = true then procesarRecursos sc recursos nivel st' l else st').historial
        = st'.historial := by
    intro b st' l
    cases b
    · rfl
    · exact procesarRecursos_historial sc recursos nivel l st'
  cases hruta : obtener_ruta_relativa sc url nivel <;>
    simp [procesar_pagina_cuerpo, hruta, hpr, procesarRecursos_historial]

/-- Every history entry present after the enqueue loop was either already
there or records one of the loop's own puts at depth `nivel + 1`. -/
theorem encolarEnlaces_historial (nivel : Nat) (es : List String) :
    ∀ (st : CrawlState) (e : Option Nat × String × Nat),
      e ∈ (encolarEnlaces nivel es st).historial →
      e ∈ st.historial ∨ ∃ u, e = (some nivel, u, nivel + 1) := by
  induction es with
  | nil => intro st e h; exact Or.inl h
  | cons u resto ih =>
    intro st e h
    simp only [encolarEnlaces] at h
    rcases ih _ e h with h' | h'
    · by_cases hc : st.urls_procesadas.contains u = true
      · rw [if_pos hc] at h'
        exact Or.inl h'
      · rw [if_neg hc] at h'
        rcases List.mem_append.mp h' with h2 | h2
        · exact Or.inl h2
        · exact Or.inr ⟨u, List.mem_singleton.mp h2⟩
    · exact Or.inr h'

/-- Every history entry present after processing one page was either
already there or was created by this page at `nivel + 1`, under the
`nivel < max_profundidad` guard. -/
theorem procesar_pagina_historial (sc : Scraper) (redes : Redes)
    (st : CrawlState) (url : String) (nivel : Nat)
    (e : Option Nat × String × Nat)
    (h : e ∈ (procesar_pagina sc redes st url nivel).historial) :
    e ∈ st.historial ∨
      (nivel < sc.config.max_profundidad ∧ ∃ u, e = (some nivel, u, nivel + 1)) := by
  unfold procesar_pagina at h
  split at h
  · exact Or.inl h
  · split at h
    · exact Or.inl h
    · split at h
      · next hlt =>
        rcases encolarEnlaces_historial nivel _ _ e h with h' | h'
        · rw [procesar_pagina_cuerpo_historial] at h'
          exact Or.inl h'
        · exact Or.inr ⟨hlt, h'⟩
      · rw [procesar_pagina_cuerpo_historial] at h
        exact Or.inl h

/-- Well-formedness of one history entry: the job depth is bounded by the
configured maximum, the seed entry has depth 0, and every other entry's
depth is its creator's depth plus one. -/
def histOk (max : Nat) (e : Option Nat × String × Nat) : Prop :=
  e.2.2 ≤ max ∧
    (e.1 = none → e.2.2 = 0) ∧
    (∀ d, e.1 = some d → e.2.2 = d + 1)

/-- The dequeue loop preserves well-formedness of the history. -/
theorem buclePrincipal_historial (sc : Scraper) (redes : Redes) (fuel : Nat) :
    ∀ st : CrawlState,
      (∀ e ∈ st.historial, histOk sc.config.max_profundidad e) →
      ∀ e ∈ (buclePrincipal sc redes fuel st).historial,
        histOk sc.config.max_profundidad e := by
  induction fuel with
  | zero => intro st h; exact h
  | succ fuel ih =>
    intro st h
    simp only [buclePrincipal]
    split
    · exact h
    · next url nivel resto heq =>
      apply ih
      intro e he
      split at he
      · exact h e he
      · rcases procesar_pagina_historial sc redes _ url nivel e he with h' | h'
        · exact h e h'
        · rcases h' with ⟨hlt, u, rfl⟩
          exact ⟨hlt, by simp, by intro d hd; simp at hd; simp [hd]⟩

end WebScraperPro

namespace WebScraperPro

/-! ## Claim theorems -/

/-- C2: every job ever placed on the work queue of a run (recorded in the
ghost history) has depth at most `max_profundidad`; the seed entry has
depth 0, and every other entry's depth is exactly the depth of the job
that created it plus one. -/
theorem crawl_depth_invariant (sc : Scraper) (redes : Redes) (fuel : Nat)
    (e : Option Nat × String × Nat)
    (h : e ∈ ((descargar_pagina sc redes fuel).2).historial) :
    e.2.2 ≤ sc.config.max_profundidad ∧
      (e.1 = none → e.2.2 = 0) ∧
      (∀ d, e.1 = some d → e.2.2 = d + 1) := by
  have h0 : ∀ e' ∈ ({ estadoInicial with
      cola := [(sc.base_url, 0)],
      historial := [(none, sc.base_url, 0)] } : CrawlState).historial,
      histOk sc.config.max_profundidad e' := by
    intro e' he'
    rcases List.mem_singleton.mp he' with rfl
    exact ⟨Nat.zero_le _, fun _ => rfl, fun d hd => by cases hd⟩
  exact buclePrincipal_historial sc redes fuel _ h0 e h

/-- Witness for C2: the Scenario A run records the seed job, and the
invariant holds for it. -/
theorem crawl_depth_invariant_witness :
    ((none, "https://example.com", 0) : Option Nat × String × Nat)
        ∈ ((descargar_pagina scEjemplo redesEscenarioA 4).2).historial ∧
      (((none, "https://example.com", 0) : Option Nat × String × Nat).2.2
          ≤ scEjemplo.config.max_profundidad ∧
        (((none, "https://example.com", 0) : Option Nat × String × Nat).1 = none →
          ((none, "https://example.com", 0) : Option Nat × String × Nat).2.2 = 0) ∧
        (∀ d, ((none, "https://example.com", 0) : Option Nat × String × Nat).1 = some d →
          ((none, "https://example.com", 0) : Option Nat × String × Nat).2.2 = d + 1)) :=
  ⟨by decide,
   crawl_depth_invariant scEjemplo redesEscenarioA 4
     (none, "https://example.com", 0) (by decide)⟩

/-- C1 (code bug evidence): when the fetch of the root page fails, the
engine of `scraper.py` absorbs the failure inside `procesar_pagina`
(error counter 1, nothing written) and `descargar_pagina` still returns
`True` — the run is not reported as failed. -/
theorem scraper_root_fetch_failure_absorbed :
    (descargar_pagina scEjemplo redesFallaRaiz 4).1 = true ∧
      ((descargar_pagina scEjemplo redesFallaRaiz 4).2).stats.errores = 1 ∧
      ((descargar_pagina scEjemplo redesFallaRaiz 4).2).writes = [] ∧
      ((descargar_pagina scEjemplo redesFallaRaiz 4).2).urls_procesadas
        = ["https://example.com"] := by
  decide

/-- C5 counterexample: in Scenario A the run writes no file named
`a.jpg`, and `archivos_procesados` is 1, not 2. -/
theorem scenarioA_counterexample :
    List.lookup "a.jpg" corridaEscenarioA.writes = none ∧
      corridaEscenarioA.stats.archivos_procesados = 1 ∧
      corridaEscenarioA.stats.archivos_procesados ≠ 2 := by
  decide

/-- C5 amended: Scenario A writes the image body `X` to
`a.jpg_index.html` (the resolver appends `index.html` to non-document
paths and replaces `/` by `_`), writes `index.html` containing the
original, unrewritten `src="a.jpg"`, counts 1 processed file (the page
write is not counted) and 0 errors. -/
theorem scenarioA_amended :
    List.lookup "a.jpg_index.html" corridaEscenarioA.writes = some "X" ∧
      List.lookup "index.html" corridaEscenarioA.writes
        = some "<html><img src=\"a.jpg\"/></html>" ∧
      (∃ antes despues, "<html><img src=\"a.jpg\"/></html>"
        = antes ++ "src=\"a.jpg\"" ++ despues) ∧
      corridaEscenarioA.stats.archivos_procesados = 1 ∧
      corridaEscenarioA.stats.errores = 0 := by
  refine ⟨by decide, by decide, ⟨"<html><img ", "/></html>", by decide⟩,
    by decide, by decide⟩

/-- C8 (code bug evidence): a 200-served `.exe` resource is written to
disk and counted as a processed file with zero errors, although
`es_archivo_seguro` rejects it (blocked extension, and for a 60 MB size
also the `MAX_FILE_SIZE` bound); the download pipeline never calls the
check, which correctly accepts only safe names and sizes. -/
theorem security_check_not_enforced :
    List.lookup "malware.exe_index.html"
        ((descargar_pagina scEjemplo redesConExe 4).2).writes = some "MZ" ∧
      ((descargar_pagina scEjemplo redesConExe 4).2).stats.errores = 0 ∧
      ((descargar_pagina scEjemplo redesConExe 4).2).stats.archivos_procesados = 1 ∧
      es_archivo_seguro "https://example.com/malware.exe" 60000000 = false ∧
      es_archivo_seguro "imagen.jpg" 60000000 = false ∧
      es_archivo_seguro "imagen.jpg" 1000 = true := by
  decide

/-- C6 counterexample: sanitizing `archivo<>:.php` yields
`archivo___.php` — three underscores, one per invalid character — not the
claimed `archivo__.php`. -/
theorem sanitize_counterexample :
    sanitizar_nombre_archivo "archivo<>:.php" = "archivo___.php" ∧
      "archivo___.php" ≠ "archivo__.php" := by
  decide

/-- C6 amended: sanitizing `archivo<>:.php` yields exactly
`archivo___.php`; the substitution step maps each character to exactly
one character (no collapsing), and each invalid character alone maps to
one underscore. -/
theorem sanitize_amended :
    sanitizar_nombre_archivo "archivo<>:.php" = "archivo___.php" ∧
      (∀ s : String, (reemplazaInvalidos s).length = s.length) ∧
      (∀ c : Char, charEn c INVALID_CHARS = true →
        reemplazaInvalidos (String.mk [c]) = "_") := by
  refine ⟨by decide, ?_, ?_⟩
  · intro s
    show (s.data.map _).length = s.data.length
    exact List.length_map _ _
  · intro c hc
    show String.mk [if charEn c INVALID_CHARS then '_' else c] = "_"
    rw [if_pos hc]

/-- C4 counterexample: two workers calling `descargar_recurso` for the
same URL, interleaved so that both pass the unguarded membership check
before either records the URL, each perform a network fetch and a
successful write — two writes for one URL in one run. -/
theorem concurrent_duplicate_write :
    ((ejecutaPlan scEjemplo recursosSoloA [0, 1, 0, 1]
        (estadoInicial, [trabajadorA, trabajadorA])).1).writes
      = [("a.jpg_index.html", "X"), ("a.jpg_index.html", "X")] ∧
      ((ejecutaPlan scEjemplo recursosSoloA [0, 1, 0, 1]
          (estadoInicial, [trabajadorA, trabajadorA])).1).stats.archivos_procesados
        = 2 ∧
      ((ejecutaPlan scEjemplo recursosSoloA [0, 1, 0, 1]
          (estadoInicial, [trabajadorA, trabajadorA])).1).fetches
        = ["https://example.com/a.jpg", "https://example.com/a.jpg"] := by
  decide

/-- C4 amended: once a URL is recorded in `archivos_descargados`, any
later non-interleaved call of `descargar_recurso` for it returns `None`
and leaves the state untouched — no fetch, no write. -/
theorem at_most_once_write_amended (sc : Scraper)
    (recursos : String → Option String) (st : CrawlState) (url : String)
    (nivel : Nat) (h : st.archivos_descargados.contains url = true) :
    descargar_recurso sc recursos st url nivel = (st, none) := by
  have hcond : (decide (url = "") || st.archivos_descargados.contains url) = true := by
    rw [h, Bool.or_true]
  unfold descargar_recurso
  rw [if_pos hcond]

/-- Witness for C4 amended: with `a.jpg` already downloaded, the call
returns `None` and changes nothing. -/
theorem at_most_once_write_amended_witness :
    estadoConA.archivos_descargados.contains "a.jpg" = true ∧
      descargar_recurso scEjemplo recursosSoloA estadoConA "a.jpg" 0
        = (estadoConA, none) :=
  ⟨by decide,
   at_most_once_write_amended scEjemplo recursosSoloA estadoConA "a.jpg" 0 (by decide)⟩

end WebScraperPro

namespace WebScraperPro

/-- C7: two sequential `get_resource` calls for the same URL, the first
missing the cache and succeeding on the network, the second issued while
the entry is younger than `CACHE_EXPIRY`, perform exactly one network
call in total; the second call returns the cached payload. -/
theorem cache_single_network_call (net : String → Option String) (url d : String)
    (t0 t1 : Int) (rm0 : RMState)
    (hmiss : buscaCache rm0.cache (get_cache_key url) = none)
    (hnet : net url = some d)
    (hfresh : t1 - t0 < CACHE_EXPIRY) :
    (get_resource net t0 rm0 url).1 = some d ∧
      ((get_resource net t0 rm0 url).2).network_calls = rm0.network_calls + 1 ∧
      (get_resource net t1 ((get_resource net t0 rm0 url).2) url).1 = some d ∧
      ((get_resource net t1 ((get_resource net t0 rm0 url).2) url).2).network_calls
        = ((get_resource net t0 rm0 url).2).network_calls := by
  have h1 : get_resource net t0 rm0 url
      = (some d,
         { cache := asignaCache rm0.cache (get_cache_key url) ⟨d, t0⟩,
           network_calls := rm0.network_calls + 1 }) := by
    simp only [get_resource, hmiss, hnet]
  rw [h1]
  refine ⟨rfl, rfl, ?_, ?_⟩ <;>
    simp only [get_resource, buscaCache_asignaCache, if_pos hfresh]

/-- Witness for C7: a fresh cache, one served stylesheet, two calls 10
seconds apart. -/
theorem cache_single_network_call_witness :
    buscaCache (⟨[], 0⟩ : RMState).cache (get_cache_key "https://example.com/r.css")
        = none ∧
      netCss "https://example.com/r.css" = some "body" ∧
      ((10 : Int) - 0 < CACHE_EXPIRY) ∧
      ((get_resource netCss 0 ⟨[], 0⟩ "https://example.com/r.css").1 = some "body" ∧
        ((get_resource netCss 0 ⟨[], 0⟩ "https://example.com/r.css").2).network_calls
          = 0 + 1 ∧
        (get_resource netCss 10
            ((get_resource netCss 0 ⟨[], 0⟩ "https://example.com/r.css").2)
            "https://example.com/r.css").1 = some "body" ∧
        ((get_resource netCss 10
            ((get_resource netCss 0 ⟨[], 0⟩ "https://example.com/r.css").2)
            "https://example.com/r.css").2).network_calls
          = ((get_resource netCss 0 ⟨[], 0⟩ "https://example.com/r.css").2).network_calls) :=
  ⟨rfl, by decide, by decide,
   cache_single_network_call netCss "https://example.com/r.css" "body" 0 10 ⟨[], 0⟩
     rfl (by decide) (by decide)⟩

/-- C10: any string longer than 2048 characters is rejected by
`validar_url`, whatever its scheme, host or characters. -/
theorem validar_url_length_bound (url : String) (h : 2048 < url.length) :
    validar_url url = false := by
  have hlen : decide (url.length ≤ 2048) = false :=
    decide_eq_false (by omega)
  simp only [validar_url, hlen, Bool.and_false]

/-- Witness for C10: a 2049-character string is rejected. -/
theorem validar_url_length_bound_witness :
    2048 < urlLarga.length ∧ validar_url urlLarga = false := by
  have h : 2048 < urlLarga.length := by
    show 2048 < (List.replicate 2049 'a').length
    rw [List.length_replicate]
    omega
  exact ⟨h, validar_url_length_bound urlLarga h⟩

/-- C3 counterexample: `mailto:user@remote.org` resolves (against
`https://example.com`) to itself, with empty netloc — a host different
from the seed host — yet `es_url_interna` reports it internal, the
resolver maps it to a local path instead of `None`, and a crawl over a
page linking to it does enqueue it as a depth-1 link job. -/
theorem domain_scoping_counterexample :
    (pyUrlsplit (pyUrljoin "https://example.com" "mailto:user@remote.org")).netloc
        ≠ scEjemplo.domain ∧
      es_url_interna scEjemplo
        (pyUrljoin "https://example.com" "mailto:user@remote.org") = true ∧
      obtener_ruta_relativa scEjemplo "mailto:user@remote.org" 0
        = some "user@remote.org_index.html" ∧
      ((some 0, "mailto:user@remote.org", 1) : Option Nat × String × Nat)
        ∈ ((descargar_pagina scEjemplo redesConMailto 4).2).historial := by
  decide

/-- C3 amended: any URL whose netloc after resolution against the base
URL is nonempty and different from the seed host is neither resolved to a
local path, nor considered internal, nor fetched or written by
`descargar_recurso`.  (URLs resolving with an empty netloc, such as
`mailto:` links, are treated as internal by the code.) -/
theorem domain_scoping_amended (sc : Scraper) (recursos : String → Option String)
    (st : CrawlState) (url : String) (nivel : Nat)
    (hne : (pyUrlsplit (pyUrljoin sc.base_url url)).netloc ≠ "")
    (hdiff : (pyUrlsplit (pyUrljoin sc.base_url url)).netloc ≠ sc.domain) :
    obtener_ruta_relativa sc url nivel = none ∧
      es_url_interna sc (pyUrljoin sc.base_url url) = false ∧
      descargar_recurso sc recursos st url nivel = (st, none) := by
  have hruta : obtener_ruta_relativa sc url nivel = none := by
    by_cases hu : url = ""
    · simp [obtener_ruta_relativa, hu]
    · simp only [obtener_ruta_relativa, if_neg hu]
      rw [if_pos ⟨hne, hdiff⟩]
  refine ⟨hruta, ?_, ?_⟩
  · simp only [es_url_interna, Bool.or_eq_false_iff, beq_eq_false_iff_ne]
    exact ⟨hdiff, hne⟩
  · unfold descargar_recurso
    split
    · rfl
    · unfold descargar_recurso_cuerpo
      rw [hruta]

/-- Witness for C3 amended: a cross-host absolute URL is rejected on all
three counts. -/
theorem domain_scoping_amended_witness :
    ((pyUrlsplit (pyUrljoin scEjemplo.base_url "https://otro.example.net/x.png")).netloc
        ≠ "" ∧
      (pyUrlsplit (pyUrljoin scEjemplo.base_url "https://otro.example.net/x.png")).netloc
        ≠ scEjemplo.domain) ∧
      (obtener_ruta_relativa scEjemplo "https://otro.example.net/x.png" 0 = none ∧
        es_url_interna scEjemplo
          (pyUrljoin scEjemplo.base_url "https://otro.example.net/x.png") = false ∧
        descargar_recurso scEjemplo recursosSoloA estadoInicial
          "https://otro.example.net/x.png" 0 = (estadoInicial, none)) :=
  ⟨⟨by decide, by decide⟩,
   domain_scoping_amended scEjemplo recursosSoloA estadoInicial
     "https://otro.example.net/x.png" 0 (by decide) (by decide)⟩

/-- C9 counterexample: with structure preservation disabled the resolver
still nests a depth-1 page below `nivel_1/`. -/
theorem estructura_nivel_counterexample :
    scSinEstructura.config.mantener_estructura = false ∧
      obtener_ruta_relativa scSinEstructura "https://example.com/page.html" 1
        = some "nivel_1/page.html" := by
  decide

/-- C9 amended: for depth above 0 the resolved path is the depth-0 path
nested below the `nivel_<depth>` component, regardless of the
`mantener_estructura` flag (which `obtener_ruta_relativa` never
reads). -/
theorem estructura_nivel_amended (sc : Scraper) (url : String) (nivel : Nat)
    (b : Bool) (h : 0 < nivel) :
    obtener_ruta_relativa
        { sc with config := { sc.config with mantener_estructura := b } } url nivel
      = obtener_ruta_relativa sc url nivel ∧
      obtener_ruta_relativa sc url nivel
        = Option.map (fun p => posixJoin ("nivel_" ++ natToStr nivel) p)
            (obtener_ruta_relativa sc url 0) ∧
      ∀ p, obtener_ruta_relativa sc url nivel = some p →
        ∃ resto, p = "nivel_" ++ natToStr nivel ++ "/" ++ resto := by
  have hmap : obtener_ruta_relativa sc url nivel
      = Option.map (fun p => posixJoin ("nivel_" ++ natToStr nivel) p)
          (obtener_ruta_relativa sc url 0) := by
    by_cases hu : url = ""
    · simp [obtener_ruta_relativa, hu]
    · simp only [obtener_ruta_relativa, if_neg hu]
      by_cases hg : (pyUrlsplit (pyUrljoin sc.base_url url)).netloc ≠ "" ∧
          (pyUrlsplit (pyUrljoin sc.base_url url)).netloc ≠ sc.domain
      · rw [if_pos hg, if_pos hg]
        rfl
      · rw [if_neg hg, if_neg hg]
        rw [if_pos h, if_neg (by omega : ¬ (0 : Nat) < 0)]
        rw [splitChar_sin_sep '/' _ (reemplazaInvalidos_sin_barra _)]
        rw [if_neg (by simp)]
        rfl
  refine ⟨rfl, hmap, ?_⟩
  intro p hp
  rw [hmap] at hp
  rcases Option.map_eq_some'.mp hp with ⟨q, hq, rfl⟩
  have hqsin : ∀ c ∈ q.data, c ≠ '/' := by
    by_cases hu : url = ""
    · rw [hu] at hq
      simp [obtener_ruta_relativa] at hq
    · simp only [obtener_ruta_relativa, if_neg hu] at hq
      by_cases hg : (pyUrlsplit (pyUrljoin sc.base_url url)).netloc ≠ "" ∧
          (pyUrlsplit (pyUrljoin sc.base_url url)).netloc ≠ sc.domain
      · rw [if_pos hg] at hq
        cases hq
      · rw [if_neg hg, if_neg (by omega : ¬ (0 : Nat) < 0)] at hq
        injection hq with hq2
        rw [← hq2]
        exact reemplazaInvalidos_sin_barra _
  refine ⟨q, ?_⟩
  rw [posixJoin_sin_barra _ _ (etiquetaNivel_no_vacia nivel)
    (etiquetaNivel_sin_barra nivel) hqsin]

/-- Witness for C9 amended: depth 1 with structure preservation disabled
still yields the `nivel_1/` nesting equation. -/
theorem estructura_nivel_amended_witness :
    (0 < 1) ∧
      obtener_ruta_relativa scSinEstructura "https://example.com/page.html" 1
        = Option.map (fun p => posixJoin ("nivel_" ++ natToStr 1) p)
            (obtener_ruta_relativa scSinEstructura "https://example.com/page.html" 0) :=
  ⟨by decide,
   (estructura_nivel_amended scSinEstructura "https://example.com/page.html" 1 true
     (by decide)).2.1⟩

end WebScraperPro
